import Mathlib

/-!
Shallow embedding of the routingpy sources (the `OpenTripPlannerV2` adapter,
the `convert` helpers and the router dispatch table) together with theorems
settling the specification claims about them.

Conventions of the embedding:
* Python numbers appearing in responses (durations, distances, coordinates)
  are modelled as rationals `ℚ`; Python `int(x)` is truncation toward zero.
* Fallible Python code (raising exceptions) is modelled with `Except PyErr`.
* External collaborators that are not part of the sources (the timezone
  database behind `convert.lonlat_to_timezone`, `float.__str__`) are passed
  as explicit function arguments.
-/

set_option maxHeartbeats 1000000

namespace RoutingPy

/-- The Python exceptions raised by the embedded code paths. -/
inductive PyErr where
  | valueError (msg : String)
  | notImplementedError
  | indexError
  | attributeError
  | routerNotFound (name : String)
deriving DecidableEq

/-- Python `int(q)` on a number: truncation toward zero. -/
def pyInt (q : ℚ) : Int := q.num.tdiv (q.den : Int)

/-- Python list indexing `l[i]` for `i ≥ 0`: raises `IndexError` out of range. -/
def getIdx {α : Type} (l : List α) (i : Nat) : Except PyErr α :=
  match l.get? i with
  | some a => .ok a
  | none => .error .indexError

/-- Whether an embedded call raised a `ValueError`. -/
def isValueErr {α : Type} : Except PyErr α → Bool
  | .error (.valueError _) => true
  | _ => false

/-- Python `str.lower()`, restricted to ASCII letters (all dictionary keys
of the router dispatch are ASCII). -/
def py_lower (s : String) : String :=
  ⟨s.data.map Char.toLower⟩

/-- Python `str.strip()` with no argument: drop leading and trailing
whitespace. -/
def py_strip (s : String) : String :=
  ⟨((s.data.dropWhile Char.isWhitespace).reverse.dropWhile Char.isWhitespace).reverse⟩

/-- Python `str.split(sep)` for a one-character separator. -/
def py_split (s : String) (sep : Char) : List String :=
  (s.data.splitOn sep).map (fun l => ⟨l⟩)

/-- Decidable equality of embedded call results. -/
instance {ε α : Type} [DecidableEq ε] [DecidableEq α] : DecidableEq (Except ε α) :=
  fun a b =>
    match a, b with
    | .ok x, .ok y =>
      match decEq x y with
      | isTrue h => isTrue (by rw [h])
      | isFalse h => isFalse (fun he => h (Except.ok.inj he))
    | .error x, .error y =>
      match decEq x y with
      | isTrue h => isTrue (by rw [h])
      | isFalse h => isFalse (fun he => h (Except.error.inj he))
    | .ok _, .error _ => isFalse (fun he => Except.noConfusion he)
    | .error _, .ok _ => isFalse (fun he => Except.noConfusion he)

/-- `convert.delimit_list(arg, delimiter)`: join the already-stringified
elements with the delimiter (`delimiter.join(map(str, arg))`). -/
def delimit_list (arg : List String) (delimiter : String) : String :=
  String.intercalate delimiter arg

/-- The `(hours, minutes, seconds)` extracted by `convert.seconds_to_iso8601`:
Python `timedelta(seconds=s).seconds` is `s % 86400` for nonnegative `s`,
then `hours = .seconds // 3600`, `minutes = (.seconds // 60) % 60`,
`seconds = .seconds % 60`. -/
def iso8601_hms (s : Nat) : Nat × Nat × Nat :=
  (s % 86400 / 3600, s % 86400 / 60 % 60, s % 86400 % 60)

/-- The string-building part of `convert.seconds_to_iso8601`: start from
`"PT"`, append `f"{hours}H"` when `hours` is truthy, `f"{minutes}M"` when
`minutes` is truthy, and `f"{seconds}S"` when `seconds` is truthy or both
`hours` and `minutes` are falsy. -/
def iso8601_build (hours minutes seconds : Nat) : String :=
  let d1 := "PT"
  let d2 := if hours ≠ 0 then d1 ++ (Nat.repr hours ++ "H") else d1
  let d3 := if minutes ≠ 0 then d2 ++ (Nat.repr minutes ++ "M") else d2
  if seconds ≠ 0 ∨ (hours = 0 ∧ minutes = 0) then d3 ++ (Nat.repr seconds ++ "S") else d3

/-- `convert.seconds_to_iso8601(seconds)` for a nonnegative number of
seconds. -/
def seconds_to_iso8601 (s : Nat) : String :=
  iso8601_build (iso8601_hms s).1 (iso8601_hms s).2.1 (iso8601_hms s).2.2

/-- A timezone-aware Python datetime as produced by
`convert.timestamp_to_tz_datetime`: it is determined by the UNIX timestamp
and the timezone name (the wall-clock rendering by the external `pytz`
database is not modelled). -/
structure PyTzDatetime where
  timestamp : Int
  tz : String
deriving DecidableEq

/-- `convert.timestamp_to_tz_datetime(timestamp, timezone)`. -/
def timestamp_to_tz_datetime (timestamp : Int) (timezone : String) : PyTzDatetime :=
  ⟨timestamp, timezone⟩

/-- A Python `datetime.datetime` argument, modelled by the three renderings
the adapter uses of it: `strftime("%Y-%m-%d")`, `strftime("%H:%M:%S")` and
`isoformat()`. -/
structure PyDatetime where
  dateStr : String
  timeStr : String
  iso : String
deriving DecidableEq

/-- A decoded coordinate in `(lon, lat)` order, scaled back from the
precision-5 integers to degrees as exact rationals. -/
abbrev Coord := ℚ × ℚ

/-- Zigzag decoding of one polyline varint value. -/
def polyZigzag (n : Nat) : Int :=
  if n % 2 = 1 then -(((n + 1) / 2 : Nat) : Int) else ((n / 2 : Nat) : Int)

/-- Decode the 5-bit-chunk varints of a polyline: each byte (already reduced
by 63) contributes its low 5 bits at the current shift; a byte below 0x20
terminates the current value, which is zigzag-decoded. -/
def polyVarints : List Nat → Nat → Nat → List Int
  | [], _, _ => []
  | b :: rest, acc, shift =>
    let acc := acc + (b % 32) * 2 ^ shift
    if b < 32 then polyZigzag acc :: polyVarints rest 0 0
    else polyVarints rest acc (shift + 5)

/-- Group a flat list of decoded deltas into `(dlat, dlng)` pairs. -/
def polyPairs : List Int → List (Int × Int)
  | dlat :: dlng :: rest => (dlat, dlng) :: polyPairs rest
  | _ => []

/-- Cumulatively sum the delta pairs into absolute `(lat, lng)` integer
coordinates. -/
def polyAccum (lat lng : Int) : List (Int × Int) → List (Int × Int)
  | [] => []
  | (dlat, dlng) :: rest =>
    (lat + dlat, lng + dlng) :: polyAccum (lat + dlat) (lng + dlng) rest

/-- Modelled from the spec: `routingpy.utils.decode_polyline5` is not among
the provided sources; the spec describes the repository as "decoding a
standard polyline encoding", and the adapter calls it at precision 5 with
`order="lnglat"`.  This is the standard Google polyline decoding: subtract
63 from each character, read 5-bit little-endian chunks into zigzag-encoded
delta values, alternate latitude/longitude deltas, accumulate, divide by
10^5, and emit points in `(lon, lat)` order. -/
def decode_polyline5 (polyline : String) : List Coord :=
  (polyAccum 0 0 (polyPairs (polyVarints (polyline.data.map (fun c => c.toNat - 63)) 0 0))).map
    (fun p => (Rat.divInt p.2 100000, Rat.divInt p.1 100000))

/-! ## The OpenTripPlannerV2 response shapes

Typed records mirroring exactly the JSON fields the adapter reads. -/

/-- `leg["legGeometry"]`: holds the encoded polyline under `points`. -/
structure LegGeometry where
  points : String
deriving DecidableEq

/-- One entry of `itinerary["legs"]`. -/
structure Leg where
  startTime : Int
  endTime : Int
  duration : ℚ
  distance : ℚ
  mode : String
  legGeometry : LegGeometry
deriving DecidableEq

/-- One entry of `response["data"]["plan"]["itineraries"]`. -/
structure Itinerary where
  duration : ℚ
  startTime : Int
  endTime : Int
  legs : List Leg
deriving DecidableEq

/-- `response["data"]["plan"]`. -/
structure Plan where
  itineraries : List Itinerary
deriving DecidableEq

/-- `response["data"]`. -/
structure PlanData where
  plan : Plan
deriving DecidableEq

/-- A directions response: `{"data": {"plan": {"itineraries": [...]}}}`. -/
structure DirectionsResponse where
  data : PlanData
deriving DecidableEq

/-- `routingpy.direction.Direction`: the common result object; `Direction()`
(all fields `None`) is the default value. -/
structure Direction where
  geometry : Option (List Coord) := none
  duration : Option Int := none
  distance : Option Int := none
  departure_datetime : Option PyTzDatetime := none
  arrival_datetime : Option PyTzDatetime := none
  raw : Option Itinerary := none
deriving DecidableEq

/-- `routingpy.direction.Directions`: a list of `Direction` plus the raw
response; `Directions()` is the default value. -/
structure Directions where
  directions : List Direction := []
  raw : Option DirectionsResponse := none
deriving DecidableEq

/-- What `parse_directions_response` can return: a `Directions`, a
`Direction`, or Python's implicit `None` when the function falls off the
end. -/
inductive DirectionsResult where
  | many (ds : Directions)
  | one (d : Direction)
  | pyNone
deriving DecidableEq

/-- One feature of an isochrones GeoJSON response, restricted to the fields
read by the adapter: `feature["geometry"]["coordinates"]` (a list of rings)
and `feature["properties"]["time"]`. -/
structure IsoFeature where
  coordinates : List (List Coord)
  time : Int
deriving DecidableEq

/-- An isochrones response: `{"features": [...]}`. -/
structure IsochronesResponse where
  features : List IsoFeature
deriving DecidableEq

/-- `routingpy.isochrone.Isochrone`, restricted to the fields the adapter
sets; `Isochrone()` is the default value. -/
structure Isochrone where
  geometry : Option (List Coord) := none
  interval : Option Int := none
  interval_type : Option String := none
deriving DecidableEq

/-- `routingpy.isochrone.Isochrones`; `Isochrones()` is the default value. -/
structure Isochrones where
  isochrones : List Isochrone := []
  raw : Option IsochronesResponse := none
deriving DecidableEq

/-- `routingpy.raster.Raster` over an image payload type `α`; `Raster()` is
the default value. -/
structure Raster (α : Type) where
  image : Option α := none
  max_travel_time : Option Int := none
deriving DecidableEq

/-- Modelled from the spec: `routingpy.matrix.Matrix` is not among the
provided sources; the spec lists `Matrix` as one of the "small set of common
result objects", so it is modelled as a record of optional result fields. -/
structure Matrix where
  durations : Option (List (List ℚ)) := none
  distances : Option (List (List ℚ)) := none
deriving DecidableEq

/-! ## The OpenTripPlannerV2 adapter -/

namespace OpenTripPlannerV2

/-- The loop body of `OpenTripPlannerV2._parse_legs`: starting from the
accumulated `distance` and `geometry`, each leg's `legGeometry.points` is
polyline-decoded in `lnglat` order, the decoded points are appended
*reversed* (`geometry.extend(list(reversed(points)))`), and
`int(leg["distance"])` is added to the distance. -/
def parseLegsLoop : List Leg → Int → List Coord → Int × List Coord
  | [], distance, geometry => (distance, geometry)
  | leg :: rest, distance, geometry =>
    let points := decode_polyline5 leg.legGeometry.points
    parseLegsLoop rest (distance + pyInt leg.distance) (geometry ++ points.reverse)

/-- `OpenTripPlannerV2._parse_legs(legs)`: returns `(distance, geometry)`. -/
def _parse_legs (legs : List Leg) : Int × List Coord :=
  parseLegsLoop legs 0 []

/-- The geometry of one leg list as the specification claim states it: the
concatenation, in leg order, of the standard precision-5 polyline decodings
of each leg's `legGeometry.points`, each leg's points kept in their decoded
order.  (Stated from the claim's words, for comparison with `_parse_legs`.) -/
def parse_legs_geometry_spec (legs : List Leg) : List Coord :=
  (legs.map (fun leg => decode_polyline5 leg.legGeometry.points)).flatten

/-- The body of the `for itinerary in ...` loop of
`parse_directions_response`, building one `Direction`.  `tzAt` stands for
`convert.lonlat_to_timezone` (whose value comes from the external
`TimezoneFinder` database); `geometry[0]` / `geometry[-1]` raise
`IndexError` when the geometry is empty. -/
def parseItinerary (tzAt : ℚ → ℚ → String) (itinerary : Itinerary) : Except PyErr Direction :=
  let pg := _parse_legs itinerary.legs
  match pg.2.head?, pg.2.getLast? with
  | some p0, some pn =>
    .ok { geometry := some pg.2
          duration := some (pyInt itinerary.duration)
          distance := some pg.1
          departure_datetime := some (timestamp_to_tz_datetime itinerary.startTime (tzAt p0.1 p0.2))
          arrival_datetime := some (timestamp_to_tz_datetime itinerary.endTime (tzAt pn.1 pn.2))
          raw := some itinerary }
  | _, _ => .error .indexError

/-- The `Direction` that `parse_directions_response` builds for one
itinerary whose parsed geometry is nonempty, written without the indexing
exceptions (the first/last point are taken with `head?`/`getLast?`). -/
def directionOfItinerary (tzAt : ℚ → ℚ → String) (itinerary : Itinerary) : Direction :=
  let pg := _parse_legs itinerary.legs
  { geometry := some pg.2
    duration := some (pyInt itinerary.duration)
    distance := some pg.1
    departure_datetime :=
      pg.2.head?.map (fun p0 => timestamp_to_tz_datetime itinerary.startTime (tzAt p0.1 p0.2))
    arrival_datetime :=
      pg.2.getLast?.map (fun pn => timestamp_to_tz_datetime itinerary.endTime (tzAt pn.1 pn.2))
    raw := some itinerary }

/-- The whole `for` loop of `parse_directions_response`: the `directions`
list it accumulates, or the first exception. -/
def parseItineraries (tzAt : ℚ → ℚ → String) : List Itinerary → Except PyErr (List Direction)
  | [] => .ok []
  | it :: rest => do
    let d ← parseItinerary tzAt it
    let ds ← parseItineraries tzAt rest
    .ok (d :: ds)

/-- `OpenTripPlannerV2.parse_directions_response(response, num_itineraries)`:
on `None` return an empty `Directions`/`Direction` depending on
`num_itineraries > 1`; otherwise build one `Direction` per itinerary, then
return them wrapped in a `Directions` when `num_itineraries > 1`, the first
one when the list is nonempty, and Python's implicit `None` otherwise. -/
def parse_directions_response (tzAt : ℚ → ℚ → String) (response : Option DirectionsResponse)
    (num_itineraries : Int) : Except PyErr DirectionsResult :=
  match response with
  | none => .ok (if num_itineraries > 1 then .many {} else .one {})
  | some resp => do
    let directions ← parseItineraries tzAt resp.data.plan.itineraries
    if num_itineraries > 1 then
      .ok (.many { directions := directions, raw := some resp })
    else
      match directions with
      | d :: _ => .ok (.one d)
      | [] => .ok .pyNone

/-- The time-argument validation and request construction of
`OpenTripPlannerV2.directions`, summarised by the pieces of the GraphQL
query that depend on the arguments.  `transportModes` is the comma-split of
the stripped profile; `arriveBy` is `date_time == arrival_time`. -/
structure DirectionsRequest where
  date : String
  time : String
  fromLat : ℚ
  fromLon : ℚ
  toLat : ℚ
  toLon : ℚ
  transportModes : List String
  numItineraries : Int
  arriveBy : Bool
deriving DecidableEq

/-- The GraphQL query interpolation of `OpenTripPlannerV2.directions`, once
`date_time` has been selected: reads `locations[0][1]`, `locations[0][0]`,
`locations[1][1]`, `locations[1][0]` (each able to raise `IndexError`) and
fills in the request fields; `arriveBy` is `date_time == arrival_time`. -/
def buildDirectionsQuery (locations : List (List ℚ)) (transport_modes : List String)
    (num_itineraries : Int) (date_time : PyDatetime) (arrival_time : Option PyDatetime) :
    Except PyErr DirectionsRequest := do
  let loc0 ← getIdx locations 0
  let loc1 ← getIdx locations 1
  let fromLat ← getIdx loc0 1
  let fromLon ← getIdx loc0 0
  let toLat ← getIdx loc1 1
  let toLon ← getIdx loc1 0
  .ok { date := date_time.dateStr
        time := date_time.timeStr
        fromLat := fromLat, fromLon := fromLon, toLat := toLat, toLon := toLon
        transportModes := transport_modes
        numItineraries := num_itineraries
        arriveBy := decide (some date_time = arrival_time) }

/-- `OpenTripPlannerV2.directions(locations, profile, departure_time,
arrival_time, num_itineraries)` up to the point where the request is handed
to the shared client: either a `ValueError` from the mutual-exclusivity
check, an `IndexError` from the coordinate indexing, or the built request.
`transport_modes` is the comma-split of the stripped profile. -/
def directions (locations : List (List ℚ)) (profile : String)
    (departure_time arrival_time : Option PyDatetime) (num_itineraries : Int) :
    Except PyErr DirectionsRequest := do
  let transport_modes := py_split (py_strip profile) ','
  let date_time ← match arrival_time, departure_time with
    | some _, some _ => Except.error (.valueError "Either departure_time or arrival_time")
    | some a, none => Except.ok a
    | none, some d => Except.ok d
    | none, none =>
      Except.error (.valueError "Need to specify either departure_time or arrival_time")
  buildDirectionsQuery locations transport_modes num_itineraries date_time arrival_time

/-- `OpenTripPlannerV2.isochrones(locations, profile, intervals, ...)` up to
the point where the GET parameters are handed to the shared client.  `pyStr`
stands for Python `str` on the coordinate floats. -/
def isochrones (pyStr : ℚ → String) (locations : List ℚ) (profile : String)
    (intervals : List Nat) (departure_time arrival_time : Option PyDatetime) :
    Except PyErr (List (String × String)) :=
  if arrival_time.isSome then
    .error (.valueError "arrival_time is not valid for OTP")
  else
    match departure_time with
    | none => .error (.valueError "departure_time must be specified for OTP")
    | some dt =>
      .ok ([("location", delimit_list (locations.reverse.map pyStr) ","),
            ("time", dt.iso),
            ("modes", profile)]
           ++ intervals.map (fun cutoff => ("cutoff", seconds_to_iso8601 cutoff)))

/-- The `for feature in response["features"]` loop of
`parse_isochrones_response`: one `Isochrone` per feature, taking
`feature["geometry"]["coordinates"][0]` (an `IndexError` when there is no
ring) and `feature["properties"]["time"]`. -/
def parseIsoFeatures : List IsoFeature → Except PyErr (List Isochrone)
  | [] => .ok []
  | feature :: rest => do
    let ring ← getIdx feature.coordinates 0
    let more ← parseIsoFeatures rest
    .ok ({ geometry := some ring, interval := some feature.time,
           interval_type := some "time" } :: more)

/-- `OpenTripPlannerV2.parse_isochrones_response(response)`: on `None` an
empty `Isochrones`, otherwise the parsed features wrapped with the raw
response. -/
def parse_isochrones_response (response : Option IsochronesResponse) :
    Except PyErr Isochrones :=
  match response with
  | none => .ok {}
  | some resp => do
    let isochrones ← parseIsoFeatures resp.features
    .ok { isochrones := isochrones, raw := some resp }

/-- `OpenTripPlannerV2.raster(locations, profile, departure_time,
arrival_time, cutoff)` up to the point where the GET parameters are handed
to the shared client.  There is no mutual-exclusivity check:
`date_time = arrival_time if arrival_time else departure_time`; when both
are `None`, `date_time.isoformat()` raises `AttributeError`. -/
def raster (pyStr : ℚ → String) (locations : List ℚ) (profile : String)
    (departure_time arrival_time : Option PyDatetime) (cutoff : Nat) :
    Except PyErr (List (String × String)) :=
  let date_time := if arrival_time.isSome then arrival_time else departure_time
  match date_time with
  | none => .error .attributeError
  | some dt =>
    .ok [("location", delimit_list (locations.reverse.map pyStr) ","),
         ("time", dt.iso),
         ("modes", profile),
         ("cutoff", seconds_to_iso8601 cutoff)]

/-- `OpenTripPlannerV2.parse_rasters_response(response, max_travel_time)`. -/
def parse_rasters_response {α : Type} (response : Option α) (max_travel_time : Int) :
    Raster α :=
  match response with
  | none => {}
  | some img => { image := some img, max_travel_time := some max_travel_time }

/-- `OpenTripPlannerV2.matrix(self)`: the body is `raise NotImplementedError`. -/
def matrix : Except PyErr Matrix :=
  .error .notImplementedError

end OpenTripPlannerV2

/-! ## The router dispatch table (`routingpy.routers.__init__`) -/

/-- The router classes imported by `routingpy/routers/__init__.py`. -/
inductive Router where
  | ORS | OSRM | MapboxOSRM | Valhalla | MapboxValhalla | Graphhopper | Google | HereMaps
deriving DecidableEq

/-- The `_SERVICE_TO_ROUTER` synonym dictionary, in source order. -/
def _SERVICE_TO_ROUTER : List (String × Router) :=
  [("ors", .ORS),
   ("openrouteservice", .ORS),
   ("osrm", .OSRM),
   ("mapbox_osrm", .MapboxOSRM),
   ("mapbox-osrm", .MapboxOSRM),
   ("mapboxosrm", .MapboxOSRM),
   ("mapbox", .MapboxOSRM),
   ("valhalla", .Valhalla),
   ("mapbox_valhalla", .MapboxValhalla),
   ("mapbox-valhalla", .MapboxValhalla),
   ("mapboxvalhalla", .MapboxValhalla),
   ("graphhopper", .Graphhopper),
   ("google", .Google),
   ("here", .HereMaps),
   ("heremaps", .HereMaps)]

/-- `get_router_by_name(router_name)`: look up `router_name.lower()` in the
dictionary and raise `RouterNotFound` on a missing key.  The error carries
the unknown name, standing for the message
`Unknown router ...; options are: ...`. -/
def get_router_by_name (router_name : String) : Except PyErr Router :=
  match _SERVICE_TO_ROUTER.lookup (py_lower router_name) with
  | some router => .ok router
  | none => .error (.routerNotFound router_name)

/-! ## Helper lemmas -/

theorem pybind_ok {α β : Type} (a : α) (f : α → Except PyErr β) :
    (Except.ok a >>= f) = f a := rfl

theorem pybind_error {α β : Type} (e : PyErr) (f : α → Except PyErr β) :
    ((Except.error e : Except PyErr α) >>= f) = Except.error e := rfl

theorem isValueErr_getIdx {α : Type} (l : List α) (i : Nat) :
    isValueErr (getIdx l i) = false := by
  unfold getIdx
  split <;> rfl

theorem isValueErr_bind {α β : Type} (x : Except PyErr α) (f : α → Except PyErr β)
    (hx : isValueErr x = false) (hf : ∀ a, isValueErr (f a) = false) :
    isValueErr (x >>= f) = false := by
  cases x with
  | error e => rw [pybind_error]; cases e <;> exact hx
  | ok a => rw [pybind_ok]; exact hf a

theorem parseLegsLoop_spec (legs : List Leg) (d : Int) (g : List Coord) :
    OpenTripPlannerV2.parseLegsLoop legs d g
      = (d + (legs.map (fun leg => pyInt leg.distance)).sum,
         g ++ (legs.map (fun leg => (decode_polyline5 leg.legGeometry.points).reverse)).flatten) := by
  induction legs generalizing d g with
  | nil => simp [OpenTripPlannerV2.parseLegsLoop]
  | cons leg rest ih =>
    simp [OpenTripPlannerV2.parseLegsLoop, ih, add_assoc]

/-! ## Claim C1: the matrix operation -/

/-- C1 counterexample: `OpenTripPlannerV2.matrix` does not return a `Matrix`
result object — every call raises `NotImplementedError`. -/
theorem otp_matrix_cex :
    OpenTripPlannerV2.matrix = Except.error PyErr.notImplementedError := rfl

/-- C1 (amended): `OpenTripPlannerV2.matrix` fails unconditionally with
`NotImplementedError`; it never returns a `Matrix` result object. -/
theorem otp_matrix_not_implemented :
    OpenTripPlannerV2.matrix = Except.error PyErr.notImplementedError
    ∧ ∀ m : Matrix, OpenTripPlannerV2.matrix ≠ Except.ok m :=
  ⟨rfl, fun _ h => Except.noConfusion h⟩

/-- Witness for C1 at the concrete empty `Matrix`. -/
theorem otp_matrix_witness :
    OpenTripPlannerV2.matrix ≠ Except.ok { durations := none, distances := none } :=
  otp_matrix_not_implemented.2 _

/-! ## Claim C2: raster time-argument handling -/

/-- C2 counterexample: a concrete `raster` call supplying both
`departure_time` and `arrival_time` is not rejected — it succeeds and the
`time` GET parameter comes from `arrival_time` (iso string `"ARR"`). -/
theorem otp_raster_cex :
    OpenTripPlannerV2.raster (fun _ => "0") [1, 2] "WALK"
        (some ⟨"2023-01-01", "08:00:00", "DEP"⟩) (some ⟨"2023-01-01", "09:00:00", "ARR"⟩) 3600
      = Except.ok [("location", "0,0"), ("time", "ARR"), ("modes", "WALK"), ("cutoff", "PT1H")] := by
  decide

/-- C2 (amended): `OpenTripPlannerV2.raster` performs no mutual-exclusivity
validation on its time arguments: whenever both `departure_time` and
`arrival_time` are supplied, no error is raised and the request is built
from `arrival_time`. -/
theorem otp_raster_uses_arrival :
    ∀ (pyStr : ℚ → String) (locations : List ℚ) (profile : String)
      (dep arr : PyDatetime) (cutoff : Nat),
      OpenTripPlannerV2.raster pyStr locations profile (some dep) (some arr) cutoff
        = Except.ok [("location", delimit_list (locations.reverse.map pyStr) ","),
                     ("time", arr.iso),
                     ("modes", profile),
                     ("cutoff", seconds_to_iso8601 cutoff)] := by
  intros; rfl

/-- Witness for C2's amended statement at a concrete call. -/
theorem otp_raster_witness :
    OpenTripPlannerV2.raster (fun _ => "1") [3, 4] "TRANSIT"
        (some ⟨"a", "b", "D"⟩) (some ⟨"c", "d", "A"⟩) 60
      = Except.ok [("location", delimit_list (([3, 4] : List ℚ).reverse.map (fun _ => "1")) ","),
                   ("time", "A"),
                   ("modes", "TRANSIT"),
                   ("cutoff", seconds_to_iso8601 60)] :=
  otp_raster_uses_arrival (fun _ => "1") [3, 4] "TRANSIT" ⟨"a", "b", "D"⟩ ⟨"c", "d", "A"⟩ 60

/-! ## Claim C3: the geometry assembled by `_parse_legs` -/

/-- C3 counterexample: for a one-leg itinerary whose polyline `"??A?"`
decodes to the two points `(0, 0), (0, 1/100000)`, the geometry produced by
`_parse_legs` differs from the in-order concatenation of the decoded legs:
the code reverses each leg's points. -/
theorem otp_parse_legs_cex :
    (OpenTripPlannerV2._parse_legs
        [⟨0, 0, 0, 0, "WALK", ⟨"??A?"⟩⟩]).2
      ≠ OpenTripPlannerV2.parse_legs_geometry_spec [⟨0, 0, 0, 0, "WALK", ⟨"??A?"⟩⟩] := by
  decide

/-- C3 (amended): the geometry of each parsed `Direction` is the
concatenation, in leg order, of the standard precision-5 polyline decodings
of each leg's `legGeometry.points`, with each leg's points *reversed*
(`geometry.extend(list(reversed(points)))`); the distance is the sum of the
integer parts of the legs' distances. -/
theorem otp_parse_legs_shape :
    ∀ legs : List Leg,
      (OpenTripPlannerV2._parse_legs legs).2
        = (legs.map (fun leg => (decode_polyline5 leg.legGeometry.points).reverse)).flatten
      ∧ (OpenTripPlannerV2._parse_legs legs).1
        = (legs.map (fun leg => pyInt leg.distance)).sum := by
  intro legs
  constructor <;> simp [OpenTripPlannerV2._parse_legs, parseLegsLoop_spec]

/-- Witness for C3's amended statement at the concrete one-leg input. -/
theorem otp_parse_legs_shape_witness :
    (OpenTripPlannerV2._parse_legs [⟨0, 0, 0, 0, "WALK", ⟨"??A?"⟩⟩]).2
      = (([⟨0, 0, 0, 0, "WALK", ⟨"??A?"⟩⟩] : List Leg).map
          (fun leg => (decode_polyline5 leg.legGeometry.points).reverse)).flatten :=
  (otp_parse_legs_shape [⟨0, 0, 0, 0, "WALK", ⟨"??A?"⟩⟩]).1

/-! ## Claim C6: `None` responses parse to empty result objects -/

/-- C6: whenever the shared client returns `None` (e.g. dry run), each parse
function returns the empty result object of the matching type: an empty
`Directions` when `num_itineraries > 1` and an empty `Direction` otherwise,
an empty `Isochrones`, and an empty `Raster`. -/
theorem otp_parse_none_defaults :
    ∀ (tzAt : ℚ → ℚ → String) (n m : Int) (α : Type),
      OpenTripPlannerV2.parse_directions_response tzAt none n
        = .ok (if n > 1 then .many { directions := [], raw := none }
               else .one { geometry := none, duration := none, distance := none,
                           departure_datetime := none, arrival_datetime := none, raw := none })
      ∧ OpenTripPlannerV2.parse_isochrones_response none = .ok { isochrones := [], raw := none }
      ∧ OpenTripPlannerV2.parse_rasters_response (α := α) none m
          = { image := none, max_travel_time := none } :=
  fun _ _ _ _ => ⟨rfl, rfl, rfl⟩

/-- Witness for C6 at `num_itineraries = 2` and `num_itineraries = 1`. -/
theorem otp_parse_none_defaults_witness :
    OpenTripPlannerV2.parse_directions_response (fun _ _ => "") none 2
      = .ok (.many { directions := [], raw := none })
    ∧ OpenTripPlannerV2.parse_directions_response (fun _ _ => "") none 1
      = .ok (.one { geometry := none, duration := none, distance := none,
                    departure_datetime := none, arrival_datetime := none, raw := none })
    ∧ OpenTripPlannerV2.parse_rasters_response (α := String) none 7
        = { image := none, max_travel_time := none } :=
  ⟨(otp_parse_none_defaults (fun _ _ => "") 2 7 String).1,
   (otp_parse_none_defaults (fun _ _ => "") 1 7 String).1,
   (otp_parse_none_defaults (fun _ _ => "") 1 7 String).2.2⟩

/-! ## Claim C7: the router dispatch table -/

/-- C7: `get_router_by_name` is a total dispatch over the synonym keys: any
string whose lowercasing is a recognised key maps to the corresponding
router class (e.g. both `"ors"` and `"openrouteservice"` to `ORS`,
`"MAPBOX"` to `MapboxOSRM`), and any other string raises `RouterNotFound`. -/
theorem get_router_dispatch :
    ∀ s : String,
      (∀ r, _SERVICE_TO_ROUTER.lookup (py_lower s) = some r
          → get_router_by_name s = .ok r)
      ∧ (_SERVICE_TO_ROUTER.lookup (py_lower s) = none
          → get_router_by_name s = .error (.routerNotFound s))
      ∧ get_router_by_name "ors" = .ok .ORS
      ∧ get_router_by_name "openrouteservice" = .ok .ORS
      ∧ get_router_by_name "MAPBOX" = .ok .MapboxOSRM := by
  intro s
  refine ⟨fun r h => ?_, fun h => ?_, rfl, rfl, rfl⟩
  · simp [get_router_by_name, h]
  · simp [get_router_by_name, h]

/-- Witness for C7: a recognised name in capitals, and an unknown name. -/
theorem get_router_dispatch_witness :
    get_router_by_name "VALHALLA" = .ok .Valhalla
    ∧ get_router_by_name "no-such-router" = .error (.routerNotFound "no-such-router") :=
  ⟨(get_router_dispatch "VALHALLA").1 Router.Valhalla rfl,
   (get_router_dispatch "no-such-router").2.1 rfl⟩

/-! ## Claims C4 and C5: time-argument validation -/

theorem isValueErr_buildDirectionsQuery (locations : List (List ℚ)) (tm : List String)
    (n : Int) (dt : PyDatetime) (arr : Option PyDatetime) :
    isValueErr (OpenTripPlannerV2.buildDirectionsQuery locations tm n dt arr) = false := by
  unfold OpenTripPlannerV2.buildDirectionsQuery
  refine isValueErr_bind _ _ (isValueErr_getIdx _ _) fun loc0 => ?_
  refine isValueErr_bind _ _ (isValueErr_getIdx _ _) fun loc1 => ?_
  refine isValueErr_bind _ _ (isValueErr_getIdx _ _) fun fLat => ?_
  refine isValueErr_bind _ _ (isValueErr_getIdx _ _) fun fLon => ?_
  refine isValueErr_bind _ _ (isValueErr_getIdx _ _) fun tLat => ?_
  refine isValueErr_bind _ _ (isValueErr_getIdx _ _) fun tLon => ?_
  rfl

theorem buildDirectionsQuery_fields (locations : List (List ℚ)) (tm : List String)
    (n : Int) (dt : PyDatetime) (arr : Option PyDatetime) (req : OpenTripPlannerV2.DirectionsRequest)
    (hok : OpenTripPlannerV2.buildDirectionsQuery locations tm n dt arr = .ok req) :
    req.date = dt.dateStr ∧ req.time = dt.timeStr ∧ req.transportModes = tm
      ∧ req.numItineraries = n ∧ req.arriveBy = decide (some dt = arr) := by
  unfold OpenTripPlannerV2.buildDirectionsQuery at hok
  cases h0 : getIdx locations 0 with
  | error e => rw [h0, pybind_error] at hok; exact absurd hok (by simp)
  | ok loc0 =>
  rw [h0, pybind_ok] at hok
  cases h1 : getIdx locations 1 with
  | error e => rw [h1, pybind_error] at hok; exact absurd hok (by simp)
  | ok loc1 =>
  rw [h1, pybind_ok] at hok
  cases h2 : getIdx loc0 1 with
  | error e => rw [h2, pybind_error] at hok; exact absurd hok (by simp)
  | ok fLat =>
  rw [h2, pybind_ok] at hok
  cases h3 : getIdx loc0 0 with
  | error e => rw [h3, pybind_error] at hok; exact absurd hok (by simp)
  | ok fLon =>
  rw [h3, pybind_ok] at hok
  cases h4 : getIdx loc1 1 with
  | error e => rw [h4, pybind_error] at hok; exact absurd hok (by simp)
  | ok tLat =>
  rw [h4, pybind_ok] at hok
  cases h5 : getIdx loc1 0 with
  | error e => rw [h5, pybind_error] at hok; exact absurd hok (by simp)
  | ok tLon =>
  rw [h5, pybind_ok] at hok
  simp only [Except.ok.injEq] at hok
  subst hok
  exact ⟨rfl, rfl, rfl, rfl, rfl⟩

theorem buildDirectionsQuery_concrete (a b c d : ℚ) (tm : List String) (n : Int)
    (dt : PyDatetime) (arr : Option PyDatetime) :
    OpenTripPlannerV2.buildDirectionsQuery [[a, b], [c, d]] tm n dt arr
      = .ok { date := dt.dateStr, time := dt.timeStr, fromLat := b, fromLon := a,
              toLat := d, toLon := c, transportModes := tm, numItineraries := n,
              arriveBy := decide (some dt = arr) } := rfl

/-- C4: for every call to `OpenTripPlannerV2.directions`, a `ValueError` is
raised iff the time arguments violate mutual exclusivity (both supplied, or
neither); when exactly one is supplied the request is built from that one
(`date`/`time` fields from it, `arriveBy` true exactly when it was
`arrival_time`). -/
theorem otp_directions_time_exclusivity :
    ∀ (locations : List (List ℚ)) (profile : String)
      (dep arr : Option PyDatetime) (n : Int),
      (isValueErr (OpenTripPlannerV2.directions locations profile dep arr n) = true
        ↔ ((dep.isSome = true ∧ arr.isSome = true) ∨ (dep = none ∧ arr = none)))
      ∧ (∀ dt req, dep = some dt → arr = none →
          OpenTripPlannerV2.directions locations profile dep arr n = .ok req →
          req.date = dt.dateStr ∧ req.time = dt.timeStr ∧ req.arriveBy = false)
      ∧ (∀ dt req, arr = some dt → dep = none →
          OpenTripPlannerV2.directions locations profile dep arr n = .ok req →
          req.date = dt.dateStr ∧ req.time = dt.timeStr ∧ req.arriveBy = true)
      ∧ (∀ (a b c d : ℚ) dt, dep = some dt → arr = none →
          OpenTripPlannerV2.directions [[a, b], [c, d]] profile dep arr n
            = .ok { date := dt.dateStr, time := dt.timeStr, fromLat := b, fromLon := a,
                    toLat := d, toLon := c, transportModes := py_split (py_strip profile) ',',
                    numItineraries := n, arriveBy := false }) := by
  intro locations profile dep arr n
  refine ⟨?_, ?_, ?_, ?_⟩
  · cases dep with
    | none =>
      cases arr with
      | none => simp [OpenTripPlannerV2.directions, pybind_error, isValueErr]
      | some a => simp [OpenTripPlannerV2.directions, pybind_ok, isValueErr_buildDirectionsQuery]
    | some d =>
      cases arr with
      | none => simp [OpenTripPlannerV2.directions, pybind_ok, isValueErr_buildDirectionsQuery]
      | some a => simp [OpenTripPlannerV2.directions, pybind_error, isValueErr]
  · intro dt req hdep harr hok
    subst hdep; subst harr
    simp only [OpenTripPlannerV2.directions, pybind_ok] at hok
    have h := buildDirectionsQuery_fields _ _ _ _ _ _ hok
    refine ⟨h.1, h.2.1, ?_⟩
    simpa using h.2.2.2.2
  · intro dt req harr hdep hok
    subst hdep; subst harr
    simp only [OpenTripPlannerV2.directions, pybind_ok] at hok
    have h := buildDirectionsQuery_fields _ _ _ _ _ _ hok
    refine ⟨h.1, h.2.1, ?_⟩
    simpa using h.2.2.2.2
  · intro a b c d dt hdep harr
    subst hdep; subst harr
    simp only [OpenTripPlannerV2.directions, pybind_ok, buildDirectionsQuery_concrete]
    simp

/-- Witness for C4: both times supplied raises `ValueError`; only a
departure time builds the request from it with `arriveBy = false`. -/
theorem otp_directions_witness :
    isValueErr (OpenTripPlannerV2.directions [[1, 2], [3, 4]] "WALK"
        (some ⟨"2021-03-03", "08:00:00", "D"⟩) (some ⟨"2021-03-03", "09:00:00", "A"⟩) 3) = true
    ∧ OpenTripPlannerV2.directions [[1, 2], [3, 4]] "WALK"
        (some ⟨"2021-03-03", "08:00:00", "D"⟩) none 3
      = .ok { date := "2021-03-03", time := "08:00:00", fromLat := 2, fromLon := 1,
              toLat := 4, toLon := 3, transportModes := py_split (py_strip "WALK") ',',
              numItineraries := 3, arriveBy := false } :=
  ⟨(otp_directions_time_exclusivity [[1, 2], [3, 4]] "WALK"
      (some ⟨"2021-03-03", "08:00:00", "D"⟩) (some ⟨"2021-03-03", "09:00:00", "A"⟩) 3).1.mpr
      (Or.inl ⟨rfl, rfl⟩),
   (otp_directions_time_exclusivity [[1, 2], [3, 4]] "WALK"
      (some ⟨"2021-03-03", "08:00:00", "D"⟩) none 3).2.2.2 1 2 3 4
      ⟨"2021-03-03", "08:00:00", "D"⟩ rfl rfl⟩

/-- C5: for every call to `OpenTripPlannerV2.isochrones`, a `ValueError` is
raised iff `arrival_time` is supplied or `departure_time` is missing; when
`departure_time` alone is supplied the GET parameters carry one `cutoff`
entry per element of `intervals`, in order. -/
theorem otp_isochrones_validation :
    ∀ (pyStr : ℚ → String) (locations : List ℚ) (profile : String)
      (intervals : List Nat) (dep arr : Option PyDatetime),
      (isValueErr (OpenTripPlannerV2.isochrones pyStr locations profile intervals dep arr) = true
        ↔ (arr.isSome = true ∨ dep = none))
      ∧ (∀ dt, dep = some dt → arr = none →
          OpenTripPlannerV2.isochrones pyStr locations profile intervals dep arr
            = .ok ([("location", delimit_list (locations.reverse.map pyStr) ","),
                    ("time", dt.iso),
                    ("modes", profile)]
                   ++ intervals.map (fun cutoff => ("cutoff", seconds_to_iso8601 cutoff))))
      ∧ (∀ params,
          OpenTripPlannerV2.isochrones pyStr locations profile intervals dep arr = .ok params →
          (params.filter (fun p => p.1 == "cutoff")).map Prod.snd
            = intervals.map seconds_to_iso8601) := by
  intro pyStr locations profile intervals dep arr
  refine ⟨?_, ?_, ?_⟩
  · cases dep <;> cases arr <;> simp [OpenTripPlannerV2.isochrones, isValueErr]
  · intro dt hdep harr
    subst hdep; subst harr
    rfl
  · intro params hok
    cases dep with
    | none => cases arr <;> simp [OpenTripPlannerV2.isochrones] at hok
    | some dt =>
      cases arr with
      | some a => simp [OpenTripPlannerV2.isochrones] at hok
      | none =>
        simp only [OpenTripPlannerV2.isochrones, Option.isSome_none, Bool.false_eq_true,
          if_false, Except.ok.injEq] at hok
        subst hok
        simp [List.filter_append, List.filter_map, Function.comp_def, List.map_map]

/-- Witness for C5: an `arrival_time` raises `ValueError`; a lone
`departure_time` with two intervals yields two ordered `cutoff` params. -/
theorem otp_isochrones_witness :
    isValueErr (OpenTripPlannerV2.isochrones (fun _ => "8") [5, 6] "WALK" [600, 1200]
        none (some ⟨"2021-03-03", "09:00:00", "A"⟩)) = true
    ∧ OpenTripPlannerV2.isochrones (fun _ => "8") [5, 6] "WALK" [600, 1200]
        (some ⟨"2021-03-03", "08:00:00", "D"⟩) none
      = .ok ([("location", delimit_list (([5, 6] : List ℚ).reverse.map (fun _ => "8")) ","),
              ("time", "D"),
              ("modes", "WALK")]
             ++ [600, 1200].map (fun cutoff => ("cutoff", seconds_to_iso8601 cutoff))) :=
  ⟨(otp_isochrones_validation (fun _ => "8") [5, 6] "WALK" [600, 1200]
      none (some ⟨"2021-03-03", "09:00:00", "A"⟩)).1.mpr (Or.inl rfl),
   (otp_isochrones_validation (fun _ => "8") [5, 6] "WALK" [600, 1200]
      (some ⟨"2021-03-03", "08:00:00", "D"⟩) none).2.1 ⟨"2021-03-03", "08:00:00", "D"⟩ rfl rfl⟩

/-! ## Claims C8 and C10: parsing directions responses -/

theorem parseItinerary_ok (tzAt : ℚ → ℚ → String) (it : Itinerary)
    (hne : (OpenTripPlannerV2._parse_legs it.legs).2 ≠ []) :
    OpenTripPlannerV2.parseItinerary tzAt it
      = .ok (OpenTripPlannerV2.directionOfItinerary tzAt it) := by
  unfold OpenTripPlannerV2.parseItinerary OpenTripPlannerV2.directionOfItinerary
  cases hh : (OpenTripPlannerV2._parse_legs it.legs).2.head? with
  | none => exact absurd (List.head?_eq_none_iff.mp hh) hne
  | some p0 =>
    cases hl : (OpenTripPlannerV2._parse_legs it.legs).2.getLast? with
    | none => exact absurd (List.getLast?_eq_none_iff.mp hl) hne
    | some pn => simp [hh, hl]

theorem parseItineraries_map (tzAt : ℚ → ℚ → String) (its : List Itinerary)
    (hne : ∀ it ∈ its, (OpenTripPlannerV2._parse_legs it.legs).2 ≠ []) :
    OpenTripPlannerV2.parseItineraries tzAt its
      = .ok (its.map (OpenTripPlannerV2.directionOfItinerary tzAt)) := by
  induction its with
  | nil => rfl
  | cons it rest ih =>
    have h1 := parseItinerary_ok tzAt it (hne it (by simp))
    have h2 := ih (fun x hx => hne x (by simp [hx]))
    simp [OpenTripPlannerV2.parseItineraries, h1, h2, pybind_ok]

/-- C8: for every response and `num_itineraries > 1` (assuming each
itinerary has a nonempty decoded geometry, without which the Python code
raises `IndexError`), `parse_directions_response` returns a `Directions`
with one `Direction` per itinerary, in response order; each `Direction`'s
duration is the integer part of the itinerary's duration and its distance
the sum of the integer parts of its legs' distances. -/
theorem otp_parse_directions_multi :
    ∀ (tzAt : ℚ → ℚ → String) (resp : DirectionsResponse) (n : Int),
      1 < n →
      (∀ it ∈ resp.data.plan.itineraries, (OpenTripPlannerV2._parse_legs it.legs).2 ≠ []) →
      OpenTripPlannerV2.parse_directions_response tzAt (some resp) n
          = .ok (.many (Directions.mk
              (resp.data.plan.itineraries.map (OpenTripPlannerV2.directionOfItinerary tzAt))
              (some resp)))
      ∧ ∀ it : Itinerary,
          (OpenTripPlannerV2.directionOfItinerary tzAt it).duration = some (pyInt it.duration)
          ∧ (OpenTripPlannerV2.directionOfItinerary tzAt it).distance
              = some ((it.legs.map (fun leg => pyInt leg.distance)).sum) := by
  intro tzAt resp n hn hne
  constructor
  · simp [OpenTripPlannerV2.parse_directions_response, parseItineraries_map tzAt _ hne,
      pybind_ok, if_pos hn]
  · intro it
    refine ⟨rfl, ?_⟩
    simp [OpenTripPlannerV2.directionOfItinerary, OpenTripPlannerV2._parse_legs,
      parseLegsLoop_spec]

/-- Witness for C8 at a concrete one-itinerary, one-leg response. -/
theorem otp_parse_directions_multi_witness :
    OpenTripPlannerV2.parse_directions_response (fun _ _ => "UTC")
        (some ⟨⟨⟨[⟨10, 100, 200, [⟨0, 0, 3, 7, "WALK", ⟨"??A?"⟩⟩]⟩]⟩⟩⟩) 2
      = .ok (.many (Directions.mk
              (([⟨10, 100, 200, [⟨0, 0, 3, 7, "WALK", ⟨"??A?"⟩⟩]⟩] : List Itinerary).map
                (OpenTripPlannerV2.directionOfItinerary (fun _ _ => "UTC")))
              (some ⟨⟨⟨[⟨10, 100, 200, [⟨0, 0, 3, 7, "WALK", ⟨"??A?"⟩⟩]⟩]⟩⟩⟩))) :=
  (otp_parse_directions_multi (fun _ _ => "UTC")
    ⟨⟨⟨[⟨10, 100, 200, [⟨0, 0, 3, 7, "WALK", ⟨"??A?"⟩⟩]⟩]⟩⟩⟩ 2
    (by decide) (by decide)).1

theorem parseItinerary_geometry_isSome (tzAt : ℚ → ℚ → String) (it : Itinerary)
    (d : Direction) (h : OpenTripPlannerV2.parseItinerary tzAt it = .ok d) :
    d.geometry.isSome = true := by
  unfold OpenTripPlannerV2.parseItinerary at h
  cases hh : (OpenTripPlannerV2._parse_legs it.legs).2.head? with
  | none =>
    cases hl : (OpenTripPlannerV2._parse_legs it.legs).2.getLast? <;> simp [hh, hl] at h
  | some p0 =>
    cases hl : (OpenTripPlannerV2._parse_legs it.legs).2.getLast? with
    | none => simp [hh, hl] at h
    | some pn =>
      simp only [hh, hl, Except.ok.injEq] at h
      subst h
      rfl

theorem parseItineraries_geometry_isSome (tzAt : ℚ → ℚ → String) (its : List Itinerary)
    (ds : List Direction) (h : OpenTripPlannerV2.parseItineraries tzAt its = .ok ds) :
    ∀ d ∈ ds, d.geometry.isSome = true := by
  induction its generalizing ds with
  | nil =>
    simp only [OpenTripPlannerV2.parseItineraries, Except.ok.injEq] at h
    subst h
    simp
  | cons it rest ih =>
    simp only [OpenTripPlannerV2.parseItineraries] at h
    cases h1 : OpenTripPlannerV2.parseItinerary tzAt it with
    | error e => rw [h1, pybind_error] at h; exact absurd h (by simp)
    | ok d0 =>
      rw [h1, pybind_ok] at h
      cases h2 : OpenTripPlannerV2.parseItineraries tzAt rest with
      | error e => rw [h2, pybind_error] at h; exact absurd h (by simp)
      | ok ds0 =>
        rw [h2, pybind_ok] at h
        simp only [Except.ok.injEq] at h
        subst h
        intro d hd
        rcases List.mem_cons.mp hd with hd | hd
        · subst hd; exact parseItinerary_geometry_isSome tzAt it d h1
        · exact ih ds0 h2 d hd

/-- C10: for a non-`None` response with an empty itineraries list and
`num_itineraries ≤ 1`, `parse_directions_response` returns Python's implicit
`None` (the function falls off the end), not an empty `Direction`; the
empty-`Direction` fallback is never produced from a non-`None` response. -/
theorem otp_parse_directions_single_empty :
    ∀ (tzAt : ℚ → ℚ → String) (resp : DirectionsResponse) (n : Int),
      ¬ 1 < n →
      (resp.data.plan.itineraries = [] →
        OpenTripPlannerV2.parse_directions_response tzAt (some resp) n = .ok .pyNone)
      ∧ OpenTripPlannerV2.parse_directions_response tzAt (some resp) n
          ≠ .ok (.one { geometry := none, duration := none, distance := none,
                        departure_datetime := none, arrival_datetime := none, raw := none }) := by
  intro tzAt resp n hn
  constructor
  · intro hempty
    simp [OpenTripPlannerV2.parse_directions_response, hempty,
      OpenTripPlannerV2.parseItineraries, pybind_ok, if_neg hn]
  · intro hcontra
    simp only [OpenTripPlannerV2.parse_directions_response] at hcontra
    cases h1 : OpenTripPlannerV2.parseItineraries tzAt resp.data.plan.itineraries with
    | error e => rw [h1, pybind_error] at hcontra; exact Except.noConfusion hcontra
    | ok ds =>
      rw [h1, pybind_ok, if_neg hn] at hcontra
      cases ds with
      | nil => simp at hcontra
      | cons d rest =>
        simp only [Except.ok.injEq, DirectionsResult.one.injEq] at hcontra
        have hg := parseItineraries_geometry_isSome tzAt _ _ h1 d (by simp)
        rw [hcontra] at hg
        simp at hg

/-- Witness for C10 at the concrete empty response and `num_itineraries = 1`. -/
theorem otp_parse_directions_single_empty_witness :
    OpenTripPlannerV2.parse_directions_response (fun _ _ => "UTC") (some ⟨⟨⟨[]⟩⟩⟩) 1
        = .ok .pyNone
    ∧ OpenTripPlannerV2.parse_directions_response (fun _ _ => "UTC") (some ⟨⟨⟨[]⟩⟩⟩) 1
        ≠ .ok (.one { geometry := none, duration := none, distance := none,
                      departure_datetime := none, arrival_datetime := none, raw := none }) :=
  ⟨(otp_parse_directions_single_empty (fun _ _ => "UTC") ⟨⟨⟨[]⟩⟩⟩ 1 (by decide)).1 rfl,
   (otp_parse_directions_single_empty (fun _ _ => "UTC") ⟨⟨⟨[]⟩⟩⟩ 1 (by decide)).2⟩

/-! ## Claim C9: `seconds_to_iso8601` -/

theorem repr_data_ne_nil : ∀ n, n < 60 → (Nat.repr n).data ≠ [] := by decide

theorem repr_head_ne_zero :
    ∀ n, n < 60 → n ≠ 0 → ((Nat.repr n).data.head?.getD '0') ≠ '0' := by decide

theorem repr_data_cons (n : Nat) (hlt : n < 60) (h0 : n ≠ 0) :
    ∃ c cs, (Nat.repr n).data = c :: cs ∧ c ≠ '0' := by
  cases hr : (Nat.repr n).data with
  | nil => exact absurd hr (repr_data_ne_nil n hlt)
  | cons c cs =>
    refine ⟨c, cs, rfl, ?_⟩
    have h2 := repr_head_ne_zero n hlt h0
    rw [hr] at h2
    simpa using h2

theorem iso8601_build_data_hours (h m s : Nat) (h0 : h ≠ 0) :
    ∃ t, (iso8601_build h m s).data = 'P' :: 'T' :: ((Nat.repr h).data ++ ('H' :: t)) := by
  have hPT : "PT".data = ['P', 'T'] := rfl
  have hH : "H".data = ['H'] := rfl
  have hM : "M".data = ['M'] := rfl
  have hS : "S".data = ['S'] := rfl
  by_cases hm : m = 0 <;> by_cases hs : s = 0
  · exact ⟨[], by simp [iso8601_build, h0, hm, hs, String.data_append, hPT, hH]⟩
  · exact ⟨(Nat.repr s).data ++ ['S'],
      by simp [iso8601_build, h0, hm, hs, String.data_append, hPT, hH, hS]⟩
  · exact ⟨(Nat.repr m).data ++ ['M'],
      by simp [iso8601_build, h0, hm, hs, String.data_append, hPT, hH, hM]⟩
  · exact ⟨(Nat.repr m).data ++ ('M' :: ((Nat.repr s).data ++ ['S'])),
      by simp [iso8601_build, h0, hm, hs, String.data_append, hPT, hH, hM, hS]⟩

theorem iso8601_build_data_minutes (m s : Nat) (hm : m ≠ 0) :
    ∃ t, (iso8601_build 0 m s).data = 'P' :: 'T' :: ((Nat.repr m).data ++ ('M' :: t)) := by
  have hPT : "PT".data = ['P', 'T'] := rfl
  have hM : "M".data = ['M'] := rfl
  have hS : "S".data = ['S'] := rfl
  by_cases hs : s = 0
  · exact ⟨[], by simp [iso8601_build, hm, hs, String.data_append, hPT, hM]⟩
  · exact ⟨(Nat.repr s).data ++ ['S'],
      by simp [iso8601_build, hm, hs, String.data_append, hPT, hM, hS]⟩

theorem iso8601_build_data_seconds (s : Nat) :
    (iso8601_build 0 0 s).data = 'P' :: 'T' :: ((Nat.repr s).data ++ ['S']) := by
  have hPT : "PT".data = ['P', 'T'] := rfl
  have hS : "S".data = ['S'] := rfl
  simp [iso8601_build, String.data_append, hPT, hS]

theorem iso8601_build_third_char (h m s : Nat) (hh : h < 60) (hm : m < 60) (hs : s < 60)
    (hnz : ¬(h = 0 ∧ m = 0 ∧ s = 0)) :
    ∃ c rest, (iso8601_build h m s).data = 'P' :: 'T' :: c :: rest ∧ c ≠ '0' := by
  by_cases h0 : h = 0
  · by_cases m0 : m = 0
    · have s0 : s ≠ 0 := fun hz => hnz ⟨h0, m0, hz⟩
      obtain ⟨c, cs, hr, hc⟩ := repr_data_cons s hs s0
      subst h0; subst m0
      exact ⟨c, cs ++ ['S'], by rw [iso8601_build_data_seconds, hr, List.cons_append], hc⟩
    · obtain ⟨c, cs, hr, hc⟩ := repr_data_cons m hm m0
      obtain ⟨t, ht⟩ := iso8601_build_data_minutes m s m0
      subst h0
      exact ⟨c, cs ++ ('M' :: t), by rw [ht, hr, List.cons_append], hc⟩
  · obtain ⟨c, cs, hr, hc⟩ := repr_data_cons h hh h0
    obtain ⟨t, ht⟩ := iso8601_build_data_hours h m s h0
    exact ⟨c, cs ++ ('H' :: t), by rw [ht, hr, List.cons_append], hc⟩

theorem iso8601_build_ne (h m s : Nat) (hh : h < 60) (hm : m < 60) (hs : s < 60)
    (hnz : ¬(h = 0 ∧ m = 0 ∧ s = 0)) :
    iso8601_build h m s ≠ "PT0S" ∧ iso8601_build h m s ≠ "PT" := by
  obtain ⟨c, rest, hd, hc⟩ := iso8601_build_third_char h m s hh hm hs hnz
  constructor
  · intro he
    rw [he] at hd
    have e : "PT0S".data = ['P', 'T', '0', 'S'] := rfl
    rw [e] at hd
    simp only [List.cons.injEq, true_and] at hd
    exact hc hd.1.symm
  · intro he
    rw [he] at hd
    have e : "PT".data = ['P', 'T'] := rfl
    rw [e] at hd
    simp at hd

theorem iso8601_build_eq_PT0S_iff (h m s : Nat) (hh : h < 60) (hm : m < 60) (hs : s < 60) :
    iso8601_build h m s = "PT0S" ↔ (h = 0 ∧ m = 0 ∧ s = 0) := by
  by_cases hz : h = 0 ∧ m = 0 ∧ s = 0
  · obtain ⟨h1, h2, h3⟩ := hz
    subst h1; subst h2; subst h3
    exact iff_of_true (by decide) ⟨rfl, rfl, rfl⟩
  · exact iff_of_false (iso8601_build_ne h m s hh hm hs hz).1 hz

/-- C9: for every nonnegative `s`, `seconds_to_iso8601` depends only on
`s % 86400` (whole days are silently dropped; `seconds_to_iso8601 86400 =
"PT0S" = seconds_to_iso8601 0`), the output is `"PT0S"` exactly when
`s % 86400` leaves zero hours, minutes and seconds, and the output always
contains at least one component (it is never the bare `"PT"`). -/
theorem seconds_to_iso8601_spec :
    (∀ s : Nat, seconds_to_iso8601 s = seconds_to_iso8601 (s % 86400))
    ∧ seconds_to_iso8601 86400 = "PT0S"
    ∧ seconds_to_iso8601 0 = "PT0S"
    ∧ (∀ s : Nat, (seconds_to_iso8601 s = "PT0S" ↔ s % 86400 = 0))
    ∧ (∀ s : Nat, seconds_to_iso8601 s ≠ "PT") := by
  refine ⟨?_, by decide, by decide, ?_, ?_⟩
  · intro s
    have hmod : s % 86400 % 86400 = s % 86400 := by omega
    simp [seconds_to_iso8601, iso8601_hms, hmod]
  · intro s
    have base := iso8601_build_eq_PT0S_iff (s % 86400 / 3600) (s % 86400 / 60 % 60)
      (s % 86400 % 60) (by omega) (by omega) (by omega)
    exact base.trans (by omega)
  · intro s
    by_cases hz : s % 86400 = 0
    · have e1 : s % 86400 / 3600 = 0 := by omega
      have e2 : s % 86400 / 60 % 60 = 0 := by omega
      have e3 : s % 86400 % 60 = 0 := by omega
      show iso8601_build (s % 86400 / 3600) (s % 86400 / 60 % 60) (s % 86400 % 60) ≠ "PT"
      rw [e1, e2, e3]
      decide
    · have hnz : ¬(s % 86400 / 3600 = 0 ∧ s % 86400 / 60 % 60 = 0 ∧ s % 86400 % 60 = 0) := by
        omega
      exact (iso8601_build_ne (s % 86400 / 3600) (s % 86400 / 60 % 60) (s % 86400 % 60)
        (by omega) (by omega) (by omega) hnz).2

/-- Witness for C9: concrete evaluations through the theorem. -/
theorem seconds_to_iso8601_witness :
    seconds_to_iso8601 90065 = seconds_to_iso8601 3665
    ∧ seconds_to_iso8601 172800 = "PT0S"
    ∧ seconds_to_iso8601 61 ≠ "PT" :=
  ⟨seconds_to_iso8601_spec.1 90065,
   (seconds_to_iso8601_spec.2.2.2.1 172800).mpr (by decide),
   seconds_to_iso8601_spec.2.2.2.2 61⟩

end RoutingPy
